import Mathlib

/-!
Verification of the synthetic time-series backfill generators of the
America-Morning-Market dashboard.

Two generator components are embedded from the TypeScript source:

* Component A (`MarketDashboard`): `generateMockVixData`, a 365-day
  mean-reverting random walk, and the anchoring shift performed in the
  `chartData` memo of the `MarketDashboard` component, together with the
  `realVixValue` anchor parser.
* Component B (`StockDetailModal`): the 30-day interpolated walk of the
  `chartData` memo of the `StockDetailModal` component, together with the
  string parsers `parsePrice` and `parseChange`.

Modelling conventions:

* JavaScript numbers are modelled as exact rationals (`ℚ`).  Where the code
  can produce the IEEE special values `NaN` / `Infinity` (Component B divides
  by `1 + changeRate`, which is `0/0` or `c/0` when `changeRate = -1`), the
  type `JSNum` with explicit `nan` / `inf` / `ninf` constructors and
  IEEE-style propagation is used.  Component A never produces special values
  on the paths modelled here (its anchor is guarded by an `isNaN` check
  before use), so it is embedded over plain `ℚ`.
* `Number(x.toFixed(2))` is modelled by `jsRound2`: rounding to the nearest
  multiple of `1/100` (no instance considered below sits on a tie, so the
  tie-breaking convention is immaterial).
* `Math.random()` is modelled by an ambient sequence `rand : ℕ → ℚ` of
  draws, assumed to lie in `[0, 1)` exactly where a theorem needs it.
* Dates are modelled as integer day numbers (`ℤ`); `date.setDate(d - k)`
  becomes subtraction of `k` days from an ambient day `t0`.  The
  presentation strings (`dateStr`, `month`, the locale labels) are omitted:
  they carry no algorithmic content.
* `parseFloat` applied to an already stripped string (containing only
  digits, dots and minus signs) is modelled by `jsParseFloat`: an optional
  leading sign, then the longest prefix of the form `digits [. digits]`;
  an empty numeric part is `NaN` (`none`).
-/

/-- `Number(x.toFixed(2))`: round to the nearest multiple of `1/100`.
(`Rat.divInt m 100` is `(m : ℚ) / 100`; it is used here so that concrete
instances evaluate without numeral casts.) -/
def jsRound2 (q : ℚ) : ℚ := Rat.divInt (round (q * 100)) 100

/-- The digit string value of a list of decimal digit characters. -/
def digitsToNat (cs : List Char) : ℕ :=
  cs.foldl (fun a c => 10 * a + (c.toNat - '0'.toNat)) 0

/-- `parseFloat` on a sign-free stripped string: the longest prefix of the
form `digits [. digits]`, `none` when the numeric part is empty (`NaN`). -/
def jsParseUnsigned (cs : List Char) : Option ℚ :=
  let intPart := cs.takeWhile (fun c => c.isDigit)
  let rest := cs.dropWhile (fun c => c.isDigit)
  match rest with
  | c :: t =>
      if c = '.' then
        let fracPart := t.takeWhile (fun d => d.isDigit)
        if intPart.isEmpty && fracPart.isEmpty then none
        else some (Rat.divInt (digitsToNat intPart) 1 +
          Rat.divInt (digitsToNat fracPart) (10 ^ fracPart.length))
      else if intPart.isEmpty then none
        else some (Rat.divInt (digitsToNat intPart) 1)
  | [] => if intPart.isEmpty then none
      else some (Rat.divInt (digitsToNat intPart) 1)

/-- `parseFloat` on a stripped string: optional leading sign, then an
unsigned number; `none` models `NaN`. -/
def jsParseFloat (cs : List Char) : Option ℚ :=
  match cs with
  | c :: t =>
      if c = '-' then (jsParseUnsigned t).map (fun q => -q)
      else if c = '+' then jsParseUnsigned t
      else jsParseUnsigned (c :: t)
  | [] => jsParseUnsigned []

namespace MarketDashboard

/-- One sample of the VIX series: `{ timestamp, VIX }` of the source
(presentation-only fields omitted; the timestamp is a day number). -/
structure VixSample where
  timestamp : ℤ
  VIX : ℚ
deriving DecidableEq

/-- One iteration of the loop body of `generateMockVixData`:
`change = (Math.random() - 0.5) * 2; baseValue += change;
baseValue += (15 - baseValue) * 0.02;
baseValue = Math.max(10, Math.min(45, baseValue))`. -/
def stepA (v r : ℚ) : ℚ :=
  let change := (r - 1/2) * 2
  let v1 := v + change
  let v2 := v1 + (15 - v1) * (2/100)
  max 10 (min 45 v2)

/-- The value of the mutable `baseValue` after `k` loop iterations
(`baseValueAt rand 0 = 13.5`, the initial value). -/
def baseValueAt (rand : ℕ → ℚ) : ℕ → ℚ
  | 0 => 27/2
  | k + 1 => stepA (baseValueAt rand k) (rand k)

/-- The loop of `generateMockVixData`: `n` remaining iterations, current
loop index `i`, current `baseValue = v`.  Each iteration records
`{ timestamp: today - (364 - i) days, VIX: Number(baseValue.toFixed(2)) }`
and continues with the updated (unrounded) `baseValue`. -/
def genVixGo (rand : ℕ → ℚ) (t0 : ℤ) : ℕ → ℕ → ℚ → List VixSample
  | 0, _, _ => []
  | n + 1, i, v =>
      let v1 := stepA v (rand i)
      ⟨t0 - (364 - (i : ℤ)), jsRound2 v1⟩ :: genVixGo rand t0 n (i + 1) v1

/-- `generateMockVixData`: 365 samples, walk started at `13.5`. -/
def generateMockVixData (rand : ℕ → ℚ) (t0 : ℤ) : List VixSample :=
  genVixGo rand t0 365 0 (27/2)

/-- `data[i].VIX` (a default for out-of-range access, never hit below). -/
def vixAt (l : List VixSample) (i : ℕ) : ℚ := (l[i]?.getD ⟨0, 0⟩).VIX

/-- `data[i].timestamp`. -/
def tsAt (l : List VixSample) (i : ℕ) : ℤ := (l[i]?.getD ⟨0, 0⟩).timestamp

/-- `data[data.length - 1].VIX`. -/
def lastVixOf (l : List VixSample) : ℚ := vixAt l (l.length - 1)

/-- `parseFloat(realVixItem.value.replace(/[^0-9.]/g, ''))`: strip every
character that is not a digit or a decimal point, then parse.
`none` models `NaN` (and the `realVixItem` being absent is modelled by the
`Option ℚ` anchor of `chartData` directly). -/
def realVixValue (s : List Char) : Option ℚ :=
  jsParseFloat (s.filter (fun c => c.isDigit || c = '.'))

/-- The `chartData` memo of `MarketDashboard`: when a real VIX value is
available (`anchor = some a` models `realVixValue !== null && !isNaN`),
shift every sample by `diff = realVixValue - lastMockVal` and re-floor at
zero: `VIX: Math.max(0, Number((d.VIX + diff).toFixed(2)))`. -/
def chartData (rand : ℕ → ℚ) (t0 : ℤ) (anchor : Option ℚ) : List VixSample :=
  let data := generateMockVixData rand t0
  match anchor with
  | some a =>
      let lastMockVal := lastVixOf data
      let diff := a - lastMockVal
      data.map (fun d => ⟨d.timestamp, max 0 (jsRound2 (d.VIX + diff))⟩)
  | none => data

/-- Modelled from the spec (§4.1, step 2), for the refinement claim about
the per-day recurrence: add the drawn perturbation `u` to the value, nudge
the value 2% of the distance toward the reversion target 15, then clamp to
`[10, 45]`. -/
def specStep (v u : ℚ) : ℚ :=
  let v1 := v + u
  let v2 := v1 + (15 - v1) * (2/100)
  max 10 (min 45 v2)

/-- Modelled from the spec (§4.1, steps 1–2): the walk obtained by starting
from the calm-regime baseline `13.5` and applying `specStep` with the
perturbation sequence `u`. -/
def specWalk (u : ℕ → ℚ) : ℕ → ℚ
  | 0 => 27/2
  | k + 1 => specStep (specWalk u k) (u k)

end MarketDashboard

/-- A JavaScript number: an exact rational or one of the IEEE special
values `NaN`, `+Infinity`, `-Infinity`.  (`ℚ` has a single zero; the signed
zeros of IEEE are collapsed, with `0` behaving as `+0`, which is the only
zero the embedded code can produce.) -/
inductive JSNum where
  | nan : JSNum
  | inf : JSNum
  | ninf : JSNum
  | num : ℚ → JSNum
deriving DecidableEq

namespace JSNum

/-- IEEE addition on `JSNum`. -/
def add : JSNum → JSNum → JSNum
  | nan, _ => nan
  | _, nan => nan
  | inf, ninf => nan
  | ninf, inf => nan
  | inf, _ => inf
  | _, inf => inf
  | ninf, _ => ninf
  | _, ninf => ninf
  | num a, num b => num (a + b)

/-- IEEE multiplication on `JSNum`. -/
def mul : JSNum → JSNum → JSNum
  | nan, _ => nan
  | _, nan => nan
  | inf, inf => inf
  | inf, ninf => ninf
  | ninf, inf => ninf
  | ninf, ninf => inf
  | inf, num b => if b = 0 then nan else if 0 < b then inf else ninf
  | num a, inf => if a = 0 then nan else if 0 < a then inf else ninf
  | ninf, num b => if b = 0 then nan else if 0 < b then ninf else inf
  | num a, ninf => if a = 0 then nan else if 0 < a then ninf else inf
  | num a, num b => num (a * b)

/-- IEEE division on `JSNum` (a zero divisor behaves as `+0`). -/
def div : JSNum → JSNum → JSNum
  | nan, _ => nan
  | _, nan => nan
  | inf, inf => nan
  | inf, ninf => nan
  | ninf, inf => nan
  | ninf, ninf => nan
  | inf, num b => if 0 ≤ b then inf else ninf
  | ninf, num b => if 0 ≤ b then ninf else inf
  | num _, inf => num 0
  | num _, ninf => num 0
  | num a, num b =>
      if b = 0 then (if a = 0 then nan else if 0 < a then inf else ninf)
      else num (a / b)

/-- `Number(x.toFixed(2))` on `JSNum` (`NaN` and the infinities round-trip
through their string forms unchanged). -/
def round2 : JSNum → JSNum
  | nan => nan
  | inf => inf
  | ninf => ninf
  | num q => num (jsRound2 q)

end JSNum

namespace StockDetailModal

/-- One sample of the price series: `{ date, price }` of the source (the
date is a day number; the locale label is omitted). -/
structure PriceSample where
  day : ℤ
  price : JSNum
deriving DecidableEq

/-- `parsePrice`: `parseFloat(priceStr.replace(/[^0-9.-]/g, '')) || 0`
(the strip keeps digits, dots and minus signs; `NaN` falls back to `0`). -/
def parsePrice (s : List Char) : ℚ :=
  (jsParseFloat (s.filter (fun c => c.isDigit || c = '.' || c = '-'))).getD 0

/-- `parseChange`: sign from the presence of a literal `-` anywhere in the
string, magnitude from the stripped string divided by 100; `none` models a
`NaN` change rate. -/
def parseChange (s : List Char) : Option ℚ :=
  (jsParseFloat (s.filter (fun c => c.isDigit || c = '.'))).map
    (fun v => (if s.contains '-' then -v else v) / 100)

/-- `let price = currentPrice / (1 + changeRate);
if (Math.abs(changeRate) < 0.001) price = currentPrice * 0.95;` -/
def startPrice (c r : ℚ) : JSNum :=
  let price := JSNum.div (JSNum.num c) (JSNum.num (1 + r))
  if |r| < 1/1000 then JSNum.num (c * (95/100)) else price

/-- `targetTrend = currentPrice * progress + price * (1 - progress)` with
`progress = i / (days - 1) = i / 29`. -/
def targetTrend (c r : ℚ) (i : ℕ) : JSNum :=
  let progress : ℚ := (i : ℚ) / 29
  JSNum.add (JSNum.num (c * progress))
    (JSNum.mul (startPrice c r) (JSNum.num (1 - progress)))

/-- The `dailyPrice` of loop index `i`:
`targetTrend + targetTrend * (Math.random() - 0.5) * volatility`, with the
final index (`i = 29`) forced to `currentPrice`. -/
def dailyPrice (c r : ℚ) (rand : ℕ → ℚ) (i : ℕ) : JSNum :=
  let tt := targetTrend c r i
  let randomFluctuation :=
    JSNum.mul (JSNum.mul tt (JSNum.num (rand i - 1/2))) (JSNum.num (2/100))
  if i = 29 then JSNum.num c else JSNum.add tt randomFluctuation

/-- The `chartData` memo of `StockDetailModal`: 30 samples, day
`today - (days - 1 - i)`, price `Number(dailyPrice.toFixed(2))`. -/
def chartData (c r : ℚ) (rand : ℕ → ℚ) (t0 : ℤ) : List PriceSample :=
  (List.range 30).map (fun (i : ℕ) =>
    ⟨t0 - (29 - (i : ℤ)), JSNum.round2 (dailyPrice c r rand i)⟩)

/-- `data[i].price` (a default for out-of-range access, never hit below). -/
def priceAt (l : List PriceSample) (i : ℕ) : JSNum :=
  (l[i]?.getD ⟨0, JSNum.nan⟩).price

end StockDetailModal

/-- The constant all-zero draw sequence (the least value of `[0, 1)`). -/
def rand0 : ℕ → ℚ := fun _ => 0

/-- The constant one-half draw sequence (`change = 0` in Component A). -/
def randHalf : ℕ → ℚ := fun _ => 1/2

/-- A draw sequence whose Component A walk descends for two days and then
locks onto the fixed point `12.56` of its step function: used to exhibit a
series whose early samples lie strictly below its final sample. -/
def rand2 : ℕ → ℚ := fun i =>
  if i ≤ 1 then 0 else if i = 2 then 92669/98000 else 582/1225

section Theorems

open MarketDashboard StockDetailModal

set_option maxRecDepth 400000

/-! ### Rounding lemmas -/

theorem divInt_cent (m : ℤ) : Rat.divInt m 100 = (m : ℚ) / 100 := by
  rw [Rat.divInt_eq_div]
  norm_num

theorem jsRound2_def (q : ℚ) : jsRound2 q = (round (q * 100) : ℚ) / 100 := by
  rw [jsRound2, divInt_cent]

theorem jsRound2_mono {q r : ℚ} (h : q ≤ r) : jsRound2 q ≤ jsRound2 r := by
  rw [jsRound2_def, jsRound2_def]
  have hr : round (q * 100) ≤ round (r * 100) := by
    rw [round_eq, round_eq]
    exact Int.floor_mono (by linarith)
  have : ((round (q * 100) : ℤ) : ℚ) ≤ ((round (r * 100) : ℤ) : ℚ) :=
    Int.cast_le.mpr hr
  exact (div_le_div_iff_of_pos_right (by norm_num)).mpr this

theorem jsRound2_zero : jsRound2 0 = 0 := by with_unfolding_all decide

theorem jsRound2_nonneg {q : ℚ} (h : 0 ≤ q) : 0 ≤ jsRound2 q := by
  have := jsRound2_mono h
  rwa [jsRound2_zero] at this

theorem jsRound2_cent (m : ℤ) : jsRound2 (Rat.divInt m 100) = Rat.divInt m 100 := by
  rw [jsRound2_def, divInt_cent]
  have h : ((m : ℚ) / 100) * 100 = (m : ℚ) := by field_simp
  rw [h, round_intCast]

theorem jsRound2_add_cent (m : ℤ) (d : ℚ) :
    jsRound2 (Rat.divInt m 100 + d) = Rat.divInt m 100 + jsRound2 d := by
  rw [jsRound2_def, jsRound2_def, divInt_cent]
  have h : ((m : ℚ) / 100 + d) * 100 = (m : ℚ) + d * 100 := by field_simp
  rw [h, round_int_add]
  push_cast
  ring

theorem jsRound2_is_cent (q : ℚ) : ∃ m : ℤ, jsRound2 q = Rat.divInt m 100 :=
  ⟨round (q * 100), rfl⟩

theorem jsRound2_ten_le {q : ℚ} (h : (10 : ℚ) ≤ q) : (10 : ℚ) ≤ jsRound2 q := by
  have h10 : jsRound2 10 = 10 := by with_unfolding_all decide
  have := jsRound2_mono h
  rwa [h10] at this

theorem jsRound2_le_45 {q : ℚ} (h : q ≤ (45 : ℚ)) : jsRound2 q ≤ 45 := by
  have h45 : jsRound2 45 = 45 := by with_unfolding_all decide
  have := jsRound2_mono h
  rwa [h45] at this

/-! ### Component A: structural lemmas -/

theorem stepA_bounds (v r : ℚ) : 10 ≤ stepA v r ∧ stepA v r ≤ 45 := by
  unfold stepA
  exact ⟨le_max_left _ _, max_le (by norm_num) (min_le_left _ _)⟩

theorem baseValueAt_bounds (rand : ℕ → ℚ) (k : ℕ) :
    10 ≤ baseValueAt rand (k + 1) ∧ baseValueAt rand (k + 1) ≤ 45 := by
  show 10 ≤ stepA (baseValueAt rand k) (rand k) ∧ _
  exact stepA_bounds _ _

theorem genVixGo_length (rand : ℕ → ℚ) (t0 : ℤ) :
    ∀ (n i : ℕ) (v : ℚ), (genVixGo rand t0 n i v).length = n := by
  intro n
  induction n with
  | zero => intro i v; rfl
  | succ m ih => intro i v; simp [genVixGo, ih]

theorem genVixGo_get (rand : ℕ → ℚ) (t0 : ℤ) :
    ∀ (n j i : ℕ), j < n →
      (genVixGo rand t0 n i (baseValueAt rand i))[j]?
        = some ⟨t0 - (364 - ((i : ℤ) + j)),
            jsRound2 (baseValueAt rand (i + j + 1))⟩ := by
  intro n
  induction n with
  | zero => intro j i h; exact absurd h (Nat.not_lt_zero j)
  | succ m ih =>
    intro j i hj
    cases j with
    | zero =>
      show (genVixGo rand t0 (m + 1) i _)[0]? = _
      simp only [genVixGo, List.getElem?_cons_zero]
      have hb : stepA (baseValueAt rand i) (rand i) = baseValueAt rand (i + 1) := rfl
      rw [hb]
      norm_num
    | succ j' =>
      have hb : stepA (baseValueAt rand i) (rand i) = baseValueAt rand (i + 1) := rfl
      show (genVixGo rand t0 (m + 1) i _)[j' + 1]? = _
      simp only [genVixGo, List.getElem?_cons_succ]
      rw [hb, ih j' (i + 1) (by omega)]
      congr 2
      · push_cast; ring
      · congr 2
        omega

theorem generateMockVixData_length (rand : ℕ → ℚ) (t0 : ℤ) :
    (generateMockVixData rand t0).length = 365 :=
  genVixGo_length rand t0 365 0 (27/2)

theorem generateMockVixData_get (rand : ℕ → ℚ) (t0 : ℤ) (j : ℕ) (hj : j < 365) :
    (generateMockVixData rand t0)[j]?
      = some ⟨t0 - 364 + j, jsRound2 (baseValueAt rand (j + 1))⟩ := by
  have h0 : baseValueAt rand 0 = 27/2 := rfl
  have h := genVixGo_get rand t0 365 j 0 hj
  rw [h0] at h
  norm_num at h
  rw [generateMockVixData, h]
  congr 2
  omega

theorem vixAt_gen (rand : ℕ → ℚ) (t0 : ℤ) (j : ℕ) (hj : j < 365) :
    vixAt (generateMockVixData rand t0) j = jsRound2 (baseValueAt rand (j + 1)) := by
  rw [vixAt, generateMockVixData_get rand t0 j hj]
  rfl

theorem tsAt_gen (rand : ℕ → ℚ) (t0 : ℤ) (j : ℕ) (hj : j < 365) :
    tsAt (generateMockVixData rand t0) j = t0 - 364 + j := by
  rw [tsAt, generateMockVixData_get rand t0 j hj]
  rfl

theorem lastVixOf_gen (rand : ℕ → ℚ) (t0 : ℤ) :
    lastVixOf (generateMockVixData rand t0) = jsRound2 (baseValueAt rand 365) := by
  rw [lastVixOf, generateMockVixData_length]
  exact vixAt_gen rand t0 364 (by norm_num)

/-! ### Component A: the anchored chart -/

theorem chartData_none (rand : ℕ → ℚ) (t0 : ℤ) :
    MarketDashboard.chartData rand t0 none = generateMockVixData rand t0 := rfl

theorem chartData_some_eq (rand : ℕ → ℚ) (t0 : ℤ) (a : ℚ) :
    MarketDashboard.chartData rand t0 (some a)
      = (generateMockVixData rand t0).map
          (fun d => ⟨d.timestamp,
            max 0 (jsRound2 (d.VIX + (a - lastVixOf (generateMockVixData rand t0))))⟩) :=
  rfl

theorem chartData_some_length (rand : ℕ → ℚ) (t0 : ℤ) (a : ℚ) :
    (MarketDashboard.chartData rand t0 (some a)).length = 365 := by
  rw [chartData_some_eq, List.length_map, generateMockVixData_length]

theorem chartData_some_get (rand : ℕ → ℚ) (t0 : ℤ) (a : ℚ) (j : ℕ) (hj : j < 365) :
    (MarketDashboard.chartData rand t0 (some a))[j]?
      = some ⟨t0 - 364 + j,
          max 0 (jsRound2 (jsRound2 (baseValueAt rand (j + 1))
            + (a - jsRound2 (baseValueAt rand 365))))⟩ := by
  rw [chartData_some_eq, List.getElem?_map, generateMockVixData_get rand t0 j hj,
    lastVixOf_gen]
  rfl

theorem vixAt_chartData_some (rand : ℕ → ℚ) (t0 : ℤ) (a : ℚ) (j : ℕ) (hj : j < 365) :
    vixAt (MarketDashboard.chartData rand t0 (some a)) j
      = max 0 (jsRound2 (jsRound2 (baseValueAt rand (j + 1))
          + (a - jsRound2 (baseValueAt rand 365)))) := by
  rw [vixAt, chartData_some_get rand t0 a j hj]
  rfl

theorem tsAt_chartData_some (rand : ℕ → ℚ) (t0 : ℤ) (a : ℚ) (j : ℕ) (hj : j < 365) :
    tsAt (MarketDashboard.chartData rand t0 (some a)) j = t0 - 364 + j := by
  rw [tsAt, chartData_some_get rand t0 a j hj]
  rfl

theorem mem_genVixGo_bounds (rand : ℕ → ℚ) (t0 : ℤ) :
    ∀ (n i : ℕ) (v : ℚ) (s : VixSample), s ∈ genVixGo rand t0 n i v →
      ∃ w : ℚ, s.VIX = jsRound2 w ∧ 10 ≤ w ∧ w ≤ 45 := by
  intro n
  induction n with
  | zero => intro i v s hs; simp [genVixGo] at hs
  | succ m ih =>
    intro i v s hs
    rw [genVixGo, List.mem_cons] at hs
    rcases hs with hs | hs
    · exact ⟨stepA v (rand i), by rw [hs], stepA_bounds v (rand i)⟩
    · exact ih (i + 1) (stepA v (rand i)) s hs

theorem mem_generateMockVixData_bounds (rand : ℕ → ℚ) (t0 : ℤ) (s : VixSample)
    (hs : s ∈ generateMockVixData rand t0) : 10 ≤ s.VIX ∧ s.VIX ≤ 45 := by
  obtain ⟨w, hw, h10, h45⟩ := mem_genVixGo_bounds rand t0 365 0 (27/2) s hs
  rw [hw]
  exact ⟨jsRound2_ten_le h10, jsRound2_le_45 h45⟩

/-! ### Concrete walks used by witnesses and counterexamples -/

theorem baseValueAt_rand0_stable : ∀ k : ℕ, baseValueAt rand0 (k + 4) = 10 := by
  intro k
  induction k with
  | zero => with_unfolding_all decide
  | succ m ih =>
    show stepA (baseValueAt rand0 (m + 4)) (rand0 (m + 4)) = 10
    rw [ih]
    show stepA 10 0 = 10
    with_unfolding_all decide

theorem baseValueAt_rand0_365 : baseValueAt rand0 365 = 10 := by
  have h := baseValueAt_rand0_stable 361
  norm_num at h
  exact h

theorem baseValueAt_rand2_stable : ∀ k : ℕ, baseValueAt rand2 (k + 3) = 314/25 := by
  intro k
  induction k with
  | zero => with_unfolding_all decide
  | succ m ih =>
    show stepA (baseValueAt rand2 (m + 3)) (rand2 (m + 3)) = 314/25
    have hr : rand2 (m + 3) = 582/1225 := by
      unfold rand2
      rw [if_neg (by omega), if_neg (by omega)]
    rw [ih, hr]
    with_unfolding_all decide

theorem baseValueAt_rand2_365 : baseValueAt rand2 365 = 314/25 := by
  have h := baseValueAt_rand2_stable 362
  norm_num at h
  exact h

theorem mem_of_getElem?_some {α : Type} {l : List α} {j : ℕ} {x : α}
    (h : l[j]? = some x) : x ∈ l := by
  obtain ⟨hlt, rfl⟩ := List.getElem?_eq_some.mp h
  exact List.getElem_mem hlt

theorem VixSample_VIX_mk (t : ℤ) (v : ℚ) : (VixSample.mk t v).VIX = v := rfl

/-! ### Claim C5 -/

/-- C5: for anchor = null (no anchoring shift applied), every value of
Component A's 365-sample series lies within the hard clamp band [10, 45]. -/
theorem c5_clamp_band (rand : ℕ → ℚ) (t0 : ℤ) (s : VixSample)
    (hs : s ∈ MarketDashboard.chartData rand t0 none) :
    10 ≤ s.VIX ∧ s.VIX ≤ 45 :=
  mem_generateMockVixData_bounds rand t0 s hs

/-- Witness for C5 at the first sample of the all-zero-draw walk. -/
theorem c5_clamp_band_witness :
    10 ≤ (VixSample.mk (-364) (1255/100)).VIX ∧
      (VixSample.mk (-364) (1255/100)).VIX ≤ 45 :=
  c5_clamp_band rand0 0 ⟨-364, 1255/100⟩ (by with_unfolding_all decide)

/-! ### Claim C8 -/

/-- C8: for all inputs (any anchor, valid or absent), every value of
Component A's output series is non-negative: after the anchoring shift the
values are re-floored at zero, and the unanchored walk is bounded below by
the clamp floor. -/
theorem c8_nonneg (rand : ℕ → ℚ) (t0 : ℤ) (anchor : Option ℚ) (s : VixSample)
    (hs : s ∈ MarketDashboard.chartData rand t0 anchor) : 0 ≤ s.VIX := by
  cases anchor with
  | none =>
    have h := mem_generateMockVixData_bounds rand t0 s hs
    linarith [h.1]
  | some a =>
    rw [chartData_some_eq] at hs
    obtain ⟨d, _, rfl⟩ := List.mem_map.mp hs
    exact le_max_left 0 _

/-- Witness for C8 at the first sample of an anchored invocation. -/
theorem c8_nonneg_witness : 0 ≤ (VixSample.mk (-364) (1255/100)).VIX :=
  c8_nonneg rand0 0 none ⟨-364, 1255/100⟩ (by with_unfolding_all decide)

/-! ### Claim C1 -/

/-- C1 (amended): for every anchor `a ≥ 0` (as produced by the
sign-stripping anchor parser), Component A's anchored output has exactly
365 samples, its day timestamps are `t0 - 364 + j` (hence strictly
increasing with no gaps or duplicates), and its last sample's value equals
`a` rounded to two decimals (`toFixed(2)`) — in particular it equals `a`
exactly whenever `a` is an integer multiple of `1/100`. -/
theorem c1_anchored_series (rand : ℕ → ℚ) (t0 : ℤ) (a : ℚ) (ha : 0 ≤ a) :
    (MarketDashboard.chartData rand t0 (some a)).length = 365 ∧
    (∀ j : ℕ, j < 365 →
      tsAt (MarketDashboard.chartData rand t0 (some a)) j = t0 - 364 + j) ∧
    (∀ i j : ℕ, i < j → j < 365 →
      tsAt (MarketDashboard.chartData rand t0 (some a)) i
        < tsAt (MarketDashboard.chartData rand t0 (some a)) j) ∧
    vixAt (MarketDashboard.chartData rand t0 (some a)) 364 = jsRound2 a ∧
    (∀ m : ℤ, a = Rat.divInt m 100 →
      vixAt (MarketDashboard.chartData rand t0 (some a)) 364 = a) := by
  have hlast : vixAt (MarketDashboard.chartData rand t0 (some a)) 364 = jsRound2 a := by
    rw [vixAt_chartData_some rand t0 a 364 (by norm_num)]
    rw [show (364 : ℕ) + 1 = 365 from rfl]
    have h : jsRound2 (baseValueAt rand 365) + (a - jsRound2 (baseValueAt rand 365)) = a := by
      ring
    rw [h, max_eq_right (jsRound2_nonneg ha)]
  refine ⟨chartData_some_length rand t0 a,
    fun j hj => tsAt_chartData_some rand t0 a j hj, ?_, hlast, ?_⟩
  · intro i j hij hj
    rw [tsAt_chartData_some rand t0 a i (by omega), tsAt_chartData_some rand t0 a j hj]
    omega
  · intro m hm
    rw [hlast, hm, jsRound2_cent]

/-- Witness for C1 (amended) at the all-zero-draw walk and anchor 1/2. -/
theorem c1_anchored_series_witness :
    0 ≤ (1/2 : ℚ) ∧
    ((MarketDashboard.chartData rand0 0 (some (1/2))).length = 365 ∧
    (∀ j : ℕ, j < 365 →
      tsAt (MarketDashboard.chartData rand0 0 (some (1/2))) j = 0 - 364 + j) ∧
    (∀ i j : ℕ, i < j → j < 365 →
      tsAt (MarketDashboard.chartData rand0 0 (some (1/2))) i
        < tsAt (MarketDashboard.chartData rand0 0 (some (1/2))) j) ∧
    vixAt (MarketDashboard.chartData rand0 0 (some (1/2))) 364 = jsRound2 (1/2) ∧
    (∀ m : ℤ, (1/2 : ℚ) = Rat.divInt m 100 →
      vixAt (MarketDashboard.chartData rand0 0 (some (1/2))) 364 = 1/2)) :=
  ⟨by norm_num, c1_anchored_series rand0 0 (1/2) (by norm_num)⟩

/-- Counterexample for C1 as stated: with the all-zero-draw walk and the
anchor `a = 0.333`, the last sample's value is `0.33`, not `a` — the final
`toFixed(2)` moves it by `0.003`, far beyond floating rounding error. -/
theorem c1_counterexample :
    vixAt (MarketDashboard.chartData rand0 0 (some (333/1000))) 364 = 33/100 ∧
    (33/100 : ℚ) ≠ 333/1000 := by
  constructor
  · rw [vixAt_chartData_some rand0 0 (333/1000) 364 (by norm_num)]
    rw [show (364 : ℕ) + 1 = 365 from rfl, baseValueAt_rand0_365]
    with_unfolding_all decide
  · with_unfolding_all decide

/-! ### Claim C3 -/

/-- C3 (amended): the uniform shift of an anchored invocation of
Component A leaves every day-over-day delta unchanged provided the
post-shift zero floor never engages, i.e. every shifted sample rounds to a
non-negative value (when the floor does engage, deltas can change — see the
counterexample). -/
theorem c3_shift_preserves_deltas (rand : ℕ → ℚ) (t0 : ℤ) (a : ℚ)
    (hfloor : ∀ s ∈ generateMockVixData rand t0,
      0 ≤ jsRound2 (s.VIX + (a - lastVixOf (generateMockVixData rand t0))))
    (i : ℕ) (hi : i + 1 < 365) :
    vixAt (MarketDashboard.chartData rand t0 (some a)) (i + 1)
        - vixAt (MarketDashboard.chartData rand t0 (some a)) i
      = vixAt (generateMockVixData rand t0) (i + 1)
        - vixAt (generateMockVixData rand t0) i := by
  have key : ∀ j : ℕ, j < 365 →
      vixAt (MarketDashboard.chartData rand t0 (some a)) j
        = vixAt (generateMockVixData rand t0) j
          + jsRound2 (a - jsRound2 (baseValueAt rand 365)) := by
    intro j hj
    have hmem : (⟨t0 - 364 + j, jsRound2 (baseValueAt rand (j + 1))⟩ : VixSample)
        ∈ generateMockVixData rand t0 :=
      mem_of_getElem?_some (generateMockVixData_get rand t0 j hj)
    have hfl := hfloor _ hmem
    rw [VixSample_VIX_mk, lastVixOf_gen] at hfl
    obtain ⟨m, hm⟩ := jsRound2_is_cent (baseValueAt rand (j + 1))
    rw [vixAt_chartData_some rand t0 a j hj, vixAt_gen rand t0 j hj, hm,
      jsRound2_add_cent m _]
    rw [hm, jsRound2_add_cent m _] at hfl
    exact max_eq_right hfl
  rw [key (i + 1) hi, key i (by omega)]
  ring

/-- Witness for C3 (amended): the all-zero-draw walk anchored at 20 (the
shift is upward, so the zero floor never engages). -/
theorem c3_shift_preserves_deltas_witness :
    (∀ s ∈ generateMockVixData rand0 0,
      0 ≤ jsRound2 (s.VIX + (20 - lastVixOf (generateMockVixData rand0 0)))) ∧
    vixAt (MarketDashboard.chartData rand0 0 (some 20)) (0 + 1)
        - vixAt (MarketDashboard.chartData rand0 0 (some 20)) 0
      = vixAt (generateMockVixData rand0 0) (0 + 1)
        - vixAt (generateMockVixData rand0 0) 0 := by
  have hlast : lastVixOf (generateMockVixData rand0 0) = 10 := by
    rw [lastVixOf_gen, baseValueAt_rand0_365]
    with_unfolding_all decide
  have hfloor : ∀ s ∈ generateMockVixData rand0 0,
      0 ≤ jsRound2 (s.VIX + (20 - lastVixOf (generateMockVixData rand0 0))) := by
    intro s hs
    have hb := (mem_generateMockVixData_bounds rand0 0 s hs).1
    rw [hlast]
    exact jsRound2_nonneg (by linarith)
  exact ⟨hfloor, c3_shift_preserves_deltas rand0 0 20 hfloor 0 (by norm_num)⟩

/-- Counterexample for C3 as stated: with the walk that descends for two
days and then locks onto `12.56`, anchoring at `a = 0` floors the first two
shifted samples at zero, so the first day-over-day delta becomes `0` while
the unshifted delta is `-0.93`. -/
theorem c3_counterexample :
    ¬ (vixAt (MarketDashboard.chartData rand2 0 (some 0)) 1
        - vixAt (MarketDashboard.chartData rand2 0 (some 0)) 0
      = vixAt (generateMockVixData rand2 0) 1
        - vixAt (generateMockVixData rand2 0) 0) := by
  have h1 : baseValueAt rand2 (0 + 1) = 251/20 := by with_unfolding_all decide
  have h2 : baseValueAt rand2 (1 + 1) = 11619/1000 := by
    show stepA (baseValueAt rand2 (0 + 1)) (rand2 1) = 11619/1000
    rw [h1]
    show stepA (251/20) 0 = 11619/1000
    norm_num [stepA, min_def, max_def]
  have jr1 : jsRound2 (251/20) = 251/20 := by with_unfolding_all decide
  have jr2 : jsRound2 (314/25) = 314/25 := by with_unfolding_all decide
  have jr3 : jsRound2 (11619/1000) = 581/50 := by
    rw [jsRound2_def]
    norm_num [round_eq]
  have jr4 : jsRound2 (251/20 + (0 - 314/25)) = -(1/100) := by
    rw [jsRound2_def]
    norm_num [round_eq]
  have jr5 : jsRound2 (581/50 + (0 - 314/25)) = -(47/50) := by
    rw [jsRound2_def]
    norm_num [round_eq]
  have e0 : vixAt (MarketDashboard.chartData rand2 0 (some 0)) 0 = 0 := by
    rw [vixAt_chartData_some rand2 0 0 0 (by norm_num), baseValueAt_rand2_365, h1,
      jr1, jr2, jr4]
    norm_num
  have e1 : vixAt (MarketDashboard.chartData rand2 0 (some 0)) 1 = 0 := by
    rw [vixAt_chartData_some rand2 0 0 1 (by norm_num), baseValueAt_rand2_365, h2,
      jr3, jr2, jr5]
    norm_num
  have g0 : vixAt (generateMockVixData rand2 0) 0 = 251/20 := by
    rw [vixAt_gen rand2 0 0 (by norm_num), h1, jr1]
  have g1 : vixAt (generateMockVixData rand2 0) 1 = 581/50 := by
    rw [vixAt_gen rand2 0 1 (by norm_num), h2, jr3]
  rw [e0, e1, g0, g1]
  norm_num

/-! ### Claim C6 -/

/-- C6: Component A's unanchored walk follows the specified per-day
recurrence in the specified order: starting from the calm-regime baseline
13.5, each day draws a perturbation `(Math.random() - 0.5) * 2` lying in
the symmetric band ±1.0, adds it to the value, nudges the value 2% of the
distance toward the reversion target 15, clamps to [10, 45] (this pipeline
is `specStep`, modelled from the spec), and records the sample (rounded to
two decimals for display). -/
theorem c6_recurrence (rand : ℕ → ℚ) (hr : ∀ i, 0 ≤ rand i ∧ rand i < 1) :
    (∀ i, -1 ≤ (rand i - 1/2) * 2 ∧ (rand i - 1/2) * 2 < 1) ∧
    baseValueAt rand 0 = 27/2 ∧
    (∀ k, baseValueAt rand (k + 1)
      = specStep (baseValueAt rand k) ((rand k - 1/2) * 2)) ∧
    (∀ k, baseValueAt rand k = specWalk (fun i => (rand i - 1/2) * 2) k) ∧
    (∀ (t0 : ℤ) (j : ℕ), j < 365 →
      vixAt (MarketDashboard.chartData rand t0 none) j
        = jsRound2 (baseValueAt rand (j + 1))) := by
  have hwalk : ∀ k, baseValueAt rand k = specWalk (fun i => (rand i - 1/2) * 2) k := by
    intro k
    induction k with
    | zero => rfl
    | succ m ih =>
      show stepA (baseValueAt rand m) (rand m) = specStep _ _
      rw [ih]
      rfl
  refine ⟨fun i => ?_, rfl, fun k => rfl, hwalk, fun t0 j hj => ?_⟩
  · have := hr i
    constructor <;> linarith [this.1, this.2]
  · rw [chartData_none]
    exact vixAt_gen rand t0 j hj

/-- Witness for C6 at the constant one-half draw sequence. -/
theorem c6_recurrence_witness :
    (∀ i, 0 ≤ randHalf i ∧ randHalf i < 1) ∧
    ((∀ i, -1 ≤ (randHalf i - 1/2) * 2 ∧ (randHalf i - 1/2) * 2 < 1) ∧
    baseValueAt randHalf 0 = 27/2 ∧
    (∀ k, baseValueAt randHalf (k + 1)
      = specStep (baseValueAt randHalf k) ((randHalf k - 1/2) * 2)) ∧
    (∀ k, baseValueAt randHalf k = specWalk (fun i => (randHalf i - 1/2) * 2) k) ∧
    (∀ (t0 : ℤ) (j : ℕ), j < 365 →
      vixAt (MarketDashboard.chartData randHalf t0 none) j
        = jsRound2 (baseValueAt randHalf (j + 1)))) := by
  have hr : ∀ i, 0 ≤ randHalf i ∧ randHalf i < 1 :=
    fun i => ⟨by norm_num [randHalf], by norm_num [randHalf]⟩
  exact ⟨hr, c6_recurrence randHalf hr⟩

/-! ### Component B: structural lemmas -/

theorem chartDataB_length (c r : ℚ) (rand : ℕ → ℚ) (t0 : ℤ) :
    (StockDetailModal.chartData c r rand t0).length = 30 := by
  rw [StockDetailModal.chartData, List.length_map, List.length_range]

theorem chartDataB_get (c r : ℚ) (rand : ℕ → ℚ) (t0 : ℤ) (i : ℕ) (hi : i < 30) :
    (StockDetailModal.chartData c r rand t0)[i]?
      = some ⟨t0 - (29 - (i : ℤ)), JSNum.round2 (dailyPrice c r rand i)⟩ := by
  rw [StockDetailModal.chartData, List.getElem?_map]
  simp [List.getElem?_range, hi]

theorem priceAt_chartDataB (c r : ℚ) (rand : ℕ → ℚ) (t0 : ℤ) (i : ℕ) (hi : i < 30) :
    priceAt (StockDetailModal.chartData c r rand t0) i
      = JSNum.round2 (dailyPrice c r rand i) := by
  rw [priceAt, chartDataB_get c r rand t0 i hi]
  rfl

theorem mem_chartDataB (c r : ℚ) (rand : ℕ → ℚ) (t0 : ℤ) (s : PriceSample)
    (hs : s ∈ StockDetailModal.chartData c r rand t0) :
    ∃ i : ℕ, i < 30 ∧
      s = ⟨t0 - (29 - (i : ℤ)), JSNum.round2 (dailyPrice c r rand i)⟩ := by
  rw [StockDetailModal.chartData] at hs
  obtain ⟨i, hi, rfl⟩ := List.mem_map.mp hs
  exact ⟨i, List.mem_range.mp hi, rfl⟩

theorem startPrice_of_small (c r : ℚ) (h : |r| < 1/1000) :
    startPrice c r = JSNum.num (c * (95/100)) := by
  rw [startPrice, if_pos h]

theorem startPrice_of_large (c r : ℚ) (h : ¬ |r| < 1/1000) :
    startPrice c r = JSNum.div (JSNum.num c) (JSNum.num (1 + r)) := by
  rw [startPrice, if_neg h]

theorem JSNum_div_num (a b : ℚ) (hb : b ≠ 0) :
    JSNum.div (JSNum.num a) (JSNum.num b) = JSNum.num (a / b) := by
  simp [JSNum.div, hb]

theorem dailyPrice_29 (c r : ℚ) (rand : ℕ → ℚ) :
    dailyPrice c r rand 29 = JSNum.num c := by
  simp [dailyPrice]

/-! ### Claim C7 -/

/-- C7: for every currentPrice and every changeRate with |changeRate| <
0.001, Component B's start price equals currentPrice * 0.95 exactly (the
fallback rule), not the division formula; for |changeRate| ≥ 0.001 the
start is the expression currentPrice / (1 + changeRate) (which, whenever
1 + changeRate ≠ 0, is the finite quotient). -/
theorem c7_start_price_rule (c r : ℚ) :
    (|r| < 1/1000 → startPrice c r = JSNum.num (c * (95/100))) ∧
    (¬ |r| < 1/1000 → startPrice c r = JSNum.div (JSNum.num c) (JSNum.num (1 + r))) ∧
    (¬ |r| < 1/1000 → 1 + r ≠ 0 → startPrice c r = JSNum.num (c / (1 + r))) := by
  refine ⟨startPrice_of_small c r, startPrice_of_large c r, fun h hne => ?_⟩
  rw [startPrice_of_large c r h, JSNum_div_num c (1 + r) hne]

/-- Witness for C7 at (1, 0) for the fallback branch and (1, 1/2) for the
division branch. -/
theorem c7_start_price_rule_witness :
    startPrice 1 0 = JSNum.num (1 * (95/100)) ∧
    startPrice 1 (1/2) = JSNum.div (JSNum.num 1) (JSNum.num (1 + 1/2)) ∧
    startPrice 1 (1/2) = JSNum.num (1 / (1 + 1/2)) :=
  ⟨(c7_start_price_rule 1 0).1 (by norm_num),
   (c7_start_price_rule 1 (1/2)).2.1
     (by rw [abs_of_pos (by norm_num : (0:ℚ) < 1/2)]; norm_num),
   (c7_start_price_rule 1 (1/2)).2.2
     (by rw [abs_of_pos (by norm_num : (0:ℚ) < 1/2)]; norm_num) (by norm_num)⟩

/-! ### Claim C2 -/

/-- C2 (amended): for every currentPrice > 0 and every changeRate,
Component B's output has exactly 30 samples and the final sample's value is
currentPrice rounded to two decimals (`Number(currentPrice.toFixed(2))`) —
the endpoint forcing is unconditional, but the recorded value passes
through the display rounding, so it equals currentPrice exactly precisely
when currentPrice is an integer multiple of 1/100. -/
theorem c2_endpoint_forced (c r : ℚ) (rand : ℕ → ℚ) (t0 : ℤ) (_hc : 0 < c) :
    (StockDetailModal.chartData c r rand t0).length = 30 ∧
    priceAt (StockDetailModal.chartData c r rand t0) 29 = JSNum.num (jsRound2 c) ∧
    (∀ m : ℤ, c = Rat.divInt m 100 →
      priceAt (StockDetailModal.chartData c r rand t0) 29 = JSNum.num c) := by
  have hp : priceAt (StockDetailModal.chartData c r rand t0) 29
      = JSNum.num (jsRound2 c) := by
    rw [priceAt_chartDataB c r rand t0 29 (by norm_num), dailyPrice_29]
    rfl
  exact ⟨chartDataB_length c r rand t0, hp, fun m hm => by rw [hp, hm, jsRound2_cent]⟩

/-- Witness for C2 (amended) at currentPrice = 1/2, changeRate = 0. -/
theorem c2_endpoint_forced_witness :
    0 < (1/2 : ℚ) ∧
    ((StockDetailModal.chartData (1/2) 0 randHalf 0).length = 30 ∧
    priceAt (StockDetailModal.chartData (1/2) 0 randHalf 0) 29
      = JSNum.num (jsRound2 (1/2)) ∧
    (∀ m : ℤ, (1/2 : ℚ) = Rat.divInt m 100 →
      priceAt (StockDetailModal.chartData (1/2) 0 randHalf 0) 29
        = JSNum.num (1/2))) :=
  ⟨by norm_num, c2_endpoint_forced (1/2) 0 randHalf 0 (by norm_num)⟩

/-- Counterexample for C2 as stated: currentPrice = 0.001 is positive, yet
the final sample records `Number((0.001).toFixed(2))` = 0, not 0.001. -/
theorem c2_counterexample :
    0 < (1/1000 : ℚ) ∧
    priceAt (StockDetailModal.chartData (1/1000) 0 randHalf 0) 29
      ≠ JSNum.num (1/1000) := by
  with_unfolding_all decide

/-! ### Claim C4 -/

theorem startPrice_zero (r : ℚ) (hr : r ≠ -1) : startPrice 0 r = JSNum.num 0 := by
  by_cases h : |r| < 1/1000
  · rw [startPrice_of_small 0 r h]
    norm_num
  · have hne : 1 + r ≠ 0 := fun hc => hr (by linarith)
    rw [startPrice_of_large 0 r h, JSNum_div_num 0 (1 + r) hne]
    norm_num

theorem targetTrend_zero (r : ℚ) (i : ℕ) (hr : r ≠ -1) :
    targetTrend 0 r i = JSNum.num 0 := by
  rw [targetTrend, startPrice_zero r hr]
  simp [JSNum.add, JSNum.mul]

theorem dailyPrice_zero (r : ℚ) (rand : ℕ → ℚ) (i : ℕ) (hr : r ≠ -1) :
    dailyPrice 0 r rand i = JSNum.num 0 := by
  rw [dailyPrice, targetTrend_zero r i hr]
  by_cases hi : i = 29 <;> simp [hi, JSNum.add, JSNum.mul]

/-- C4 (amended): for currentPrice = 0 (the value parsePrice gives an
unparseable price string) and every changeRate other than −1, Component B
returns a full 30-sample series in which every value is exactly 0; no error
is raised.  (At changeRate = −1 the implied start is the division 0/0 = NaN
and samples 0–28 are NaN — still no error — see the counterexample.) -/
theorem c4_zero_price (r : ℚ) (rand : ℕ → ℚ) (t0 : ℤ) (hr : r ≠ -1) :
    (StockDetailModal.chartData 0 r rand t0).length = 30 ∧
    (∀ s ∈ StockDetailModal.chartData 0 r rand t0, s.price = JSNum.num 0) := by
  refine ⟨chartDataB_length 0 r rand t0, fun s hs => ?_⟩
  obtain ⟨i, hi, rfl⟩ := mem_chartDataB 0 r rand t0 s hs
  show JSNum.round2 (dailyPrice 0 r rand i) = JSNum.num 0
  rw [dailyPrice_zero r rand i hr]
  simp [JSNum.round2, jsRound2_zero]

/-- Witness for C4 (amended) at changeRate = 0. -/
theorem c4_zero_price_witness :
    (0 : ℚ) ≠ -1 ∧
    ((StockDetailModal.chartData 0 0 randHalf 0).length = 30 ∧
    (∀ s ∈ StockDetailModal.chartData 0 0 randHalf 0, s.price = JSNum.num 0)) :=
  ⟨by norm_num, c4_zero_price 0 randHalf 0 (by norm_num)⟩

/-- Counterexample for C4 as stated: at changeRate = −1 (e.g. parsed from
"-100%"), the implied start is 0/0 = NaN, so sample 0 records NaN, not 0
(the series still materialises without an error). -/
theorem c4_counterexample :
    priceAt (StockDetailModal.chartData 0 (-1) randHalf 0) 0 = JSNum.nan ∧
    JSNum.nan ≠ JSNum.num 0 := by
  with_unfolding_all decide

/-! ### Claim C10 -/

theorem startPrice_pos (c r : ℚ) (hc : 0 < c) (hr : -1 < r) :
    ∃ p : ℚ, startPrice c r = JSNum.num p ∧ 0 < p := by
  by_cases h : |r| < 1/1000
  · exact ⟨c * (95/100), startPrice_of_small c r h, by positivity⟩
  · have h1 : 0 < 1 + r := by linarith
    exact ⟨c / (1 + r),
      by rw [startPrice_of_large c r h, JSNum_div_num c _ (ne_of_gt h1)],
      div_pos hc h1⟩

theorem targetTrend_pos (c r : ℚ) (i : ℕ) (hi : i ≤ 29) (hc : 0 < c) (hr : -1 < r) :
    ∃ t : ℚ, targetTrend c r i = JSNum.num t ∧ 0 < t := by
  obtain ⟨p, hsp, hp⟩ := startPrice_pos c r hc hr
  refine ⟨c * ((i : ℚ)/29) + p * (1 - (i : ℚ)/29), ?_, ?_⟩
  · rw [targetTrend, hsp]
    simp [JSNum.mul, JSNum.add]
  · have h0 : (0 : ℚ) ≤ (i : ℚ)/29 := by positivity
    have h1 : (i : ℚ)/29 ≤ 1 := by
      rw [div_le_one (by norm_num)]
      exact_mod_cast hi
    rcases lt_or_eq_of_le h1 with h1' | h1'
    · have hp2 := mul_pos hp (by linarith : (0 : ℚ) < 1 - (i : ℚ)/29)
      have hc2 := mul_nonneg hc.le h0
      linarith
    · rw [h1']
      nlinarith [hc]

theorem dailyPrice_pos (c r : ℚ) (rand : ℕ → ℚ) (i : ℕ) (hi : i < 30)
    (hc : 0 < c) (hr : -1 < r) (hrand : ∀ j, 0 ≤ rand j ∧ rand j < 1) :
    ∃ q : ℚ, dailyPrice c r rand i = JSNum.num q ∧ 0 < q := by
  by_cases h29 : i = 29
  · refine ⟨c, ?_, hc⟩
    rw [dailyPrice]
    simp [h29]
  · obtain ⟨t, htt, ht⟩ := targetTrend_pos c r i (by omega) hc hr
    refine ⟨t + t * (rand i - 1/2) * (2/100), ?_, ?_⟩
    · rw [dailyPrice, htt]
      simp [h29, JSNum.mul, JSNum.add]
    · have hx := hrand i
      nlinarith [ht, hx.1, hx.2]

/-- C10: for every currentPrice > 0 and every changeRate > −1 (both the
implied-start division and the 0.95 fallback), every one of Component B's
30 sample values is a non-negative finite number, and every pre-rounding
dailyPrice is strictly positive: the multiplicative noise factor is bounded
by 1% of the strictly positive linear trend, so no draw of the random
source can make a pre-rounding value non-positive. -/
theorem c10_positive_samples (c r : ℚ) (rand : ℕ → ℚ) (t0 : ℤ)
    (hc : 0 < c) (hr : -1 < r) (hrand : ∀ j, 0 ≤ rand j ∧ rand j < 1) :
    (∀ s ∈ StockDetailModal.chartData c r rand t0,
      ∃ q : ℚ, s.price = JSNum.num q ∧ 0 ≤ q) ∧
    (∀ i : ℕ, i < 30 →
      ∃ q : ℚ, dailyPrice c r rand i = JSNum.num q ∧ 0 < q) := by
  have hdp : ∀ i : ℕ, i < 30 →
      ∃ q : ℚ, dailyPrice c r rand i = JSNum.num q ∧ 0 < q :=
    fun i hi => dailyPrice_pos c r rand i hi hc hr hrand
  refine ⟨fun s hs => ?_, hdp⟩
  obtain ⟨i, hi, rfl⟩ := mem_chartDataB c r rand t0 s hs
  obtain ⟨q, hq, hq0⟩ := hdp i hi
  refine ⟨jsRound2 q, ?_, jsRound2_nonneg hq0.le⟩
  show JSNum.round2 (dailyPrice c r rand i) = _
  rw [hq]
  rfl

/-- Witness for C10 at (currentPrice, changeRate) = (1, 0) with the
constant one-half draw sequence. -/
theorem c10_positive_samples_witness :
    0 < (1 : ℚ) ∧ (-1 : ℚ) < 0 ∧ (∀ j, 0 ≤ randHalf j ∧ randHalf j < 1) ∧
    ((∀ s ∈ StockDetailModal.chartData 1 0 randHalf 0,
      ∃ q : ℚ, s.price = JSNum.num q ∧ 0 ≤ q) ∧
    (∀ i : ℕ, i < 30 →
      ∃ q : ℚ, dailyPrice 1 0 randHalf i = JSNum.num q ∧ 0 < q)) :=
  ⟨by norm_num, by norm_num,
   fun j => ⟨by norm_num [randHalf], by norm_num [randHalf]⟩,
   c10_positive_samples 1 0 randHalf 0 (by norm_num) (by norm_num)
     (fun j => ⟨by norm_num [randHalf], by norm_num [randHalf]⟩)⟩

/-! ### Claim C9 -/

theorem jsParseUnsigned_nonneg (cs : List Char) (q : ℚ)
    (h : jsParseUnsigned cs = some q) : 0 ≤ q := by
  simp only [jsParseUnsigned] at h
  split at h
  · split at h
    · split at h
      · exact absurd h (by simp)
      · rw [Option.some_inj] at h
        rw [← h]
        exact add_nonneg
          (Rat.divInt_nonneg (Int.natCast_nonneg _) (by norm_num))
          (Rat.divInt_nonneg (Int.natCast_nonneg _) (pow_nonneg (by norm_num) _))
    · split at h
      · exact absurd h (by simp)
      · rw [Option.some_inj] at h
        rw [← h]
        exact Rat.divInt_nonneg (Int.natCast_nonneg _) (by norm_num)
  · split at h
    · exact absurd h (by simp)
    · rw [Option.some_inj] at h
      rw [← h]
      exact Rat.divInt_nonneg (Int.natCast_nonneg _) (by norm_num)

theorem jsParseFloat_of_no_sign (cs : List Char)
    (h1 : '-' ∉ cs) (h2 : '+' ∉ cs) :
    jsParseFloat cs = jsParseUnsigned cs := by
  cases cs with
  | nil => rfl
  | cons c t =>
    have hc1 : c ≠ '-' := fun hc => h1 (List.mem_cons.mpr (Or.inl hc.symm))
    have hc2 : c ≠ '+' := fun hc => h2 (List.mem_cons.mpr (Or.inl hc.symm))
    simp only [jsParseFloat, if_neg hc1, if_neg hc2]

theorem realVixValue_nonneg (s : List Char) (q : ℚ)
    (h : realVixValue s = some q) : 0 ≤ q := by
  rw [realVixValue, jsParseFloat_of_no_sign] at h
  · exact jsParseUnsigned_nonneg _ q h
  · intro hm
    exact absurd (List.mem_filter.mp hm).2 (by decide)
  · intro hm
    exact absurd (List.mem_filter.mp hm).2 (by decide)

/-- C9 (amended): the price parser strips every character that is not a
digit, minus sign or decimal point, so a minus in the price string is
preserved and can yield a negative value; the index/volatility anchor
parser, however, strips to digits and decimal points only — it removes
signs, so its result is never negative.  The two rules differ, refuting
"parsed by the same rule ... negative for both parsers". -/
theorem c9_parser_sign_rule :
    (∀ (s : List Char) (q : ℚ), realVixValue s = some q → 0 ≤ q) ∧
    parsePrice ("-14.3".toList) = -(143/10) :=
  ⟨realVixValue_nonneg, by with_unfolding_all decide⟩

/-- Witness for C9 (amended): the sign-free string "14.3" parses to the
non-negative 14.3 through the anchor parser, while parsePrice keeps the
minus of "-14.3". -/
theorem c9_parser_sign_rule_witness :
    realVixValue ("14.3".toList) = some (143/10) ∧ 0 ≤ (143/10 : ℚ) ∧
    parsePrice ("-14.3".toList) = -(143/10) :=
  ⟨by with_unfolding_all decide,
   c9_parser_sign_rule.1 ("14.3".toList) (143/10) (by with_unfolding_all decide),
   c9_parser_sign_rule.2⟩

/-- Counterexample for C9 as stated: on the input string "-14.3" the
index/volatility parser returns +14.3 (the minus is stripped before
parsing), while parsePrice returns −14.3 — the minus is not preserved by
both parsers and the two parsed values differ. -/
theorem c9_counterexample :
    realVixValue ("-14.3".toList) = some (143/10) ∧
    parsePrice ("-14.3".toList) = -(143/10) ∧
    ¬ (143/10 : ℚ) < 0 := by
  refine ⟨?_, ?_, by norm_num⟩ <;> with_unfolding_all decide

end Theorems
